import Mathlib

/-!
Shallow embedding of the RAG chat service (FastAPI app in `main.py`,
service layer in `utils/vertex_service.py`, prompt templates in
`utils/prompts.py`).  External provider behavior (generation, retrieval,
summarization, streaming chunks) is passed in explicitly as data, so every
definition is executable; each definition mirrors the corresponding Python
function line by line.
-/

namespace RagChat

/-- One conversation turn, as appended by the chat endpoints
(`main.py`, lines 85-90 / 144-149).  The timestamp string is supplied by
the caller (`datetime.now().isoformat()` in Python). -/
structure Turn where
  user : String
  assistant : String
  timestamp : String
  used_rag : Bool
deriving DecidableEq, Repr

/-- A session record (`main.py`, lines 69-74): message list, running
message count, rolling summary, and timestamps. -/
structure Session where
  messages : List Turn
  message_count : Nat
  summary : String
  created_at : String
  last_updated : Option String
deriving DecidableEq, Repr

/-- The fresh session dict created for an unseen id (`main.py` 69-74). -/
def freshSession (now : String) : Session :=
  { messages := [], message_count := 0, summary := "", created_at := now,
    last_updated := none }

/-- The `chat_history` section of the YAML configuration
(`vertex_service.py`, lines 35-38), defaults 3 / 5 / 4000. -/
structure Config where
  max_history_length : Nat
  summarize_threshold : Nat
  max_context_length : Nat
deriving DecidableEq, Repr

def defaultConfig : Config :=
  { max_history_length := 3, summarize_threshold := 5, max_context_length := 4000 }

/-- Python list slice `l[-n:]`.  For `n ≥ 1` this is the last `n`
elements (all of them when `n ≥ len(l)`); for `n = 0` the slice is
`l[0:]`, i.e. the whole list, because `-0 == 0` in Python. -/
def pyTail (n : Nat) (l : List α) : List α :=
  if n = 0 then l else l.drop (l.length - n)

/-- One streamed provider chunk (`vertex_service.py`, lines 252-261):
an optional direct `text` attribute, and a `candidates` structure holding
per-candidate lists of parts, each with an optional `text`. -/
structure Chunk where
  text : Option String
  candidates : List (List (Option String))
deriving DecidableEq, Repr

/-- Chunk-text extraction from the streaming loop
(`vertex_service.py`, lines 253-261): use the direct `text` field if it
is present and non-empty (Python truthiness), otherwise concatenate the
non-empty part texts of all candidates in order. -/
def extractChunkText (c : Chunk) : String :=
  let fromCands :=
    String.join ((c.candidates.flatMap (fun parts => parts)).filterMap
      (fun o => o.bind (fun t => if t = "" then none else some t)))
  match c.text with
  | some t => if t = "" then fromCands else t
  | none => fromCands

/-- Provider behavior for a single request, given to the service layer as
data: whether the model / RAG resources were initialized
(`self._model`, `self._rag_resources`), and the outcome of each possible
provider call (`Except.error` models a raised exception). -/
structure GenEnv where
  modelInit : Bool
  ragConfigured : Bool
  retrieval : Except Unit (List (Option String))
  genResult : Except String String
  summarizeResult : Except Unit String

/-- Text segments extracted from the retrieval response
(`vertex_service.py`, lines 111-114): every context object whose `text`
attribute exists and is non-empty, in provider order. -/
def segmentTexts (ctxs : List (Option String)) : List String :=
  ctxs.filterMap (fun o => o.bind (fun t => if t = "" then none else some t))

/-- `VertexRAGService._retrieve_rag_context` (lines 94-123): empty when
no retrieval resource is configured; empty on provider exception or an
empty context list; otherwise the segment texts joined by a blank line
and truncated to `max_context_length` characters. -/
def retrieveRagContext (cfg : Config) (ragConfigured : Bool)
    (outcome : Except Unit (List (Option String))) : String :=
  if ragConfigured = false then ""
  else
    match outcome with
    | .error _ => ""
    | .ok ctxs =>
        if ctxs = [] then ""
        else (String.intercalate "\n\n" (segmentTexts ctxs)).take cfg.max_context_length

/-- The `context_parts` list built by
`VertexRAGService._build_conversation_context` (lines 125-143):
an optional summary block, then a "Recent conversation:" label followed by
`User:`/`Assistant:` lines for the last `max_history_length` messages. -/
def conversationContextParts (maxHist : Nat) (s : Session) : List String :=
  (if s.summary = "" then [] else ["Previous conversation summary:\n" ++ s.summary]) ++
  (let recent := pyTail maxHist s.messages
   if recent = [] then []
   else "Recent conversation:" ::
     recent.flatMap (fun m => ["User: " ++ m.user, "Assistant: " ++ m.assistant]))

/-- `VertexRAGService._build_conversation_context` (lines 125-143). -/
def buildConversationContext (cfg : Config) (s : Session) : String :=
  String.intercalate "\n\n" (conversationContextParts cfg.max_history_length s)

/-- `VertexRAGService._should_summarize` (lines 145-148). -/
def shouldSummarize (cfg : Config) (s : Session) : Bool :=
  decide (0 < s.message_count) && decide (s.message_count % cfg.summarize_threshold = 0)

/-- Python's `str.strip()`: drop leading and trailing whitespace. -/
def pyStrip (s : String) : String :=
  ⟨((s.data.dropWhile Char.isWhitespace).reverse.dropWhile
      Char.isWhitespace).reverse⟩

/-- `VertexRAGService.summarize_conversation` (lines 150-171): empty
input yields `""` without a provider call; a provider exception is caught
and yields `""`; otherwise the stripped response text. -/
def summarizeConversation (messages : List Turn)
    (outcome : Except Unit String) : String :=
  if messages = [] then ""
  else
    match outcome with
    | .error _ => ""
    | .ok t => pyStrip t

/-- The post-generation summarization step shared verbatim by
`chat_with_history` (lines 203-209) and `chat_with_history_stream`
(lines 267-272): when `_should_summarize` holds and the summary is
non-empty, overwrite the summary and truncate the messages to
`messages[-2:]`; otherwise leave the session untouched. -/
def summarizeUpdate (cfg : Config) (env : GenEnv) (s : Session) : Session :=
  if shouldSummarize cfg s then
    let summary := summarizeConversation s.messages env.summarizeResult
    if summary = "" then s
    else { s with summary := summary,
                  messages := s.messages.drop (s.messages.length - 2) }
  else s

/-- `VertexRAGService.chat_with_history` (lines 173-214): returns the
`(response, rag_context)` pair and the (possibly mutated) session.
Provider exceptions during generation are caught and turned into an
error-marker response with empty context, leaving the session as it was
(the summarization step runs only after a successful generation). -/
def chatWithHistory (cfg : Config) (env : GenEnv) (message : String)
    (s : Session) (use_rag : Bool) : (String × String) × Session :=
  if env.modelInit = false then (("❌ Model not initialized.", ""), s)
  else
    let rag_context :=
      if use_rag && env.ragConfigured then
        retrieveRagContext cfg env.ragConfigured env.retrieval
      else ""
    match env.genResult with
    | .error e => (("❌ Error generating response: " ++ e, ""), s)
    | .ok text => ((pyStrip text, rag_context), summarizeUpdate cfg env s)

/-- `VertexRAGService.chat_with_history_stream` (lines 216-275), with the
provider's chunk sequence and an optional mid-stream exception given as
data: yields one `(chunk_text, rag_context)` pair per non-empty extracted
chunk text; on an exception it yields one final error-marker pair and the
session is left untouched; otherwise the summarization step runs at
exhaustion. -/
def chatWithHistoryStream (cfg : Config) (env : GenEnv) (message : String)
    (s : Session) (use_rag : Bool) (chunks : List Chunk) (exc : Option String) :
    List (String × String) × Session :=
  if env.modelInit = false then ([("❌ Model not initialized.", "")], s)
  else
    let rag_context :=
      if use_rag && env.ragConfigured then
        retrieveRagContext cfg env.ragConfigured env.retrieval
      else ""
    let pairs := ((chunks.map extractChunkText).filter (fun t => t != "")).map
      (fun t => (t, rag_context))
    match exc with
    | some e => (pairs ++ [("❌ Error generating response: " ++ e, "")], s)
    | none => (pairs, summarizeUpdate cfg env s)

/-! ## Chat API service (`main.py`) -/

/-- Body of a `POST /chat` / `POST /chat/stream` request (`main.py` 24-27). -/
structure ChatRequest where
  message : String
  session_id : Option String
  use_rag : Bool := true

/-- Body of a successful `POST /chat` response (`main.py` 30-35).
`context_used` is `Optional[str]` in the Pydantic model; the handler
always supplies a string value for it. -/
structure ChatResponse where
  response : String
  session_id : String
  message_count : Nat
  used_rag : Bool
  context_used : Option String
deriving DecidableEq, Repr

/-- The in-memory session store `chat_sessions` (`main.py` 21),
modelled as an association list with Python-dict update semantics. -/
def Store := List (String × Session)

/-- Dict lookup `chat_sessions.get(session_id)`. -/
def storeGet : Store → String → Option Session
  | [], _ => none
  | kv :: rest, sid => if kv.1 = sid then some kv.2 else storeGet rest sid

/-- Dict assignment `chat_sessions[session_id] = session`. -/
def storeSet : Store → String → Session → Store
  | [], sid, s => [(sid, s)]
  | kv :: rest, sid, s =>
      if kv.1 = sid then (sid, s) :: rest else kv :: storeSet rest sid s

/-- `request.session_id or str(uuid.uuid4())` (`main.py` 68): the fresh
identifier `genSid` is used when the field is absent or empty (Python
truthiness). -/
def sessionIdOf (req : ChatRequest) (genSid : String) : String :=
  match req.session_id with
  | some sid => if sid = "" then genSid else sid
  | none => genSid

/-- Session lookup-or-create (`main.py` 69-74 / 117-122). -/
def sessionFor (st : Store) (req : ChatRequest) (genSid now : String) : Session :=
  (storeGet st (sessionIdOf req genSid)).getD (freshSession now)

/-- The session bookkeeping done by both chat handlers after a completed
generation (`main.py` 85-92 / 144-151): append the turn, increment
`message_count`, refresh `last_updated`. -/
def commitTurn (message response now : String) (use_rag : Bool) (s : Session) :
    Session :=
  { s with
    messages := s.messages ++
      [{ user := message, assistant := response, timestamp := now,
         used_rag := use_rag }],
    message_count := s.message_count + 1,
    last_updated := some now }

/-- The 200-character diagnostic truncation applied to `context_used` in
both chat handlers (`main.py` 102 and 157):
`context_used[:200] + "..." if context_used and len(context_used) > 200
else context_used`. -/
def truncContext (c : String) : String :=
  if c != "" && 200 < c.length then c.take 200 ++ "..." else c

/-- The `POST /chat` handler (`main.py` 61-106), parametric in the
outcome of the `rag_service.chat_with_history(...)` call so that an
exception raised inside the `try` block (`Except.error`) is expressible:
on such an exception the handler returns a 500 error and the store is
returned as it was, because the `chat_sessions[session_id] = session`
commit only happens later in the `try` body. -/
def chatEndpointGen (serviceInit : Bool)
    (call : Session → Except String ((String × String) × Session))
    (now genSid : String) (st : Store) (req : ChatRequest) :
    Store × Except String ChatResponse :=
  if serviceInit = false then (st, .error "RAG service not initialized")
  else
    let sid := sessionIdOf req genSid
    match call (sessionFor st req genSid now) with
    | .error e => (st, .error ("Error processing chat: " ++ e))
    | .ok pr =>
        let s2 := commitTurn req.message pr.1.1 now req.use_rag pr.2
        (storeSet st sid s2,
         .ok { response := pr.1.1, session_id := sid,
               message_count := s2.message_count, used_rag := req.use_rag,
               context_used := some (truncContext pr.1.2) })

/-- The `POST /chat` handler composed with the actual service call
(`chat_with_history` catches provider errors itself, so in this
composition the call never raises). -/
def chatEndpoint (cfg : Config) (env : GenEnv) (now genSid : String)
    (st : Store) (req : ChatRequest) : Store × Except String ChatResponse :=
  chatEndpointGen true
    (fun s => .ok (chatWithHistory cfg env req.message s req.use_rag))
    now genSid st req

/-- One server-sent frame of `POST /chat/stream` (`main.py` 141-161):
the JSON payloads tagged `chunk`, `metadata`, `done`, `error`.  The
`metadata` constructor carrying a `context_used` field models that the
key is always present in the emitted JSON object. -/
inductive Frame where
  | chunk (content session_id : String)
  | metadata (session_id : String) (message_count : Nat) (context_used : String)
  | done
  | error (msg : String)
deriving DecidableEq, Repr

/-- `context_used` accumulation in the streaming loop (`main.py`
135-136): the first non-empty context seen, else `""`. -/
def firstCtx (pairs : List (String × String)) : String :=
  pairs.foldl (fun acc p => if p.2 != "" && acc == "" then p.2 else acc) ""

/-- The `generate_stream` generator of `POST /chat/stream`
(`main.py` 124-161): one chunk frame per yielded pair, then the session
bookkeeping, then one metadata frame and one done frame.  Returns the
emitted frames together with the committed session. -/
def generateStream (cfg : Config) (env : GenEnv) (message now : String)
    (use_rag : Bool) (chunks : List Chunk) (exc : Option String)
    (sid : String) (s : Session) : List Frame × Session :=
  let res := chatWithHistoryStream cfg env message s use_rag chunks exc
  let pairs := res.1
  let full_response := String.join (pairs.map (fun p => p.1))
  let context_used := firstCtx pairs
  let s2 := commitTurn message full_response now use_rag res.2
  ((pairs.map (fun p => Frame.chunk p.1 sid)) ++
    [Frame.metadata sid s2.message_count (truncContext context_used),
     Frame.done], s2)

/-- Result body of `POST /sessions/{id}/summarize` (`main.py` 233-237). -/
structure SummarizeResponse where
  session_id : String
  summary : String
  message_count : Nat
deriving DecidableEq, Repr

/-- The `POST /sessions/{id}/summarize` handler (`main.py` 220-239):
404 for an unknown id; otherwise it calls `summarize_conversation`
(which absorbs provider errors into `""`) and unconditionally assigns the
result to `session["summary"]` — the session dict is aliased in the
store, so the store is updated in place. -/
def forceSummarizeSession (outcome : Except Unit String) (now : String)
    (st : Store) (sid : String) : Store × Except String SummarizeResponse :=
  match storeGet st sid with
  | none => (st, .error "Session not found")
  | some session =>
      let summary := summarizeConversation session.messages outcome
      let s1 := { session with summary := summary, last_updated := some now }
      (storeSet st sid s1,
       .ok { session_id := sid, summary := summary,
             message_count := session.message_count })

/-! ## Operation traces over one session -/

/-- One completed operation touching a session record: a non-streaming
chat turn, a streaming chat turn, or a forced summarization. -/
inductive SessionOp where
  | chat (env : GenEnv) (message now : String) (use_rag : Bool)
  | chatStream (env : GenEnv) (chunks : List Chunk) (exc : Option String)
      (message now : String) (use_rag : Bool) (sid : String)
  | forceSummarize (outcome : Except Unit String) (now : String)

/-- The effect of one operation on the session record, as committed by
the corresponding handler. -/
def applyOp (cfg : Config) (s : Session) : SessionOp → Session
  | .chat env message now use_rag =>
      commitTurn message ((chatWithHistory cfg env message s use_rag).1.1) now
        use_rag ((chatWithHistory cfg env message s use_rag).2)
  | .chatStream env chunks exc message now use_rag sid =>
      (generateStream cfg env message now use_rag chunks exc sid s).2
  | .forceSummarize outcome now =>
      { s with summary := summarizeConversation s.messages outcome,
               last_updated := some now }

/-- Folding a whole sequence of operations over a session record. -/
def applyTrace (cfg : Config) : Session → List SessionOp → Session
  | s, [] => s
  | s, op :: ops => applyTrace cfg (applyOp cfg s op) ops

/-- How many turns an operation appends: both chat operations append
exactly one turn, forced summarization appends none. -/
def opAppends : SessionOp → Nat
  | .forceSummarize _ _ => 0
  | _ => 1

/-- Total number of turns ever appended along a trace. -/
def traceAppends (ops : List SessionOp) : Nat :=
  (ops.map opAppends).sum

/-! ## Prompt library (`utils/prompts.py`) -/

/-- The `prompt_parts` list built by `RAGPrompts.get_rag_chat_prompt`
(`prompts.py` 8-48): fixed preamble, optional CONVERSATION HISTORY
section, optional KNOWLEDGE BASE CONTEXT section, user message and fixed
instruction block. -/
def ragChatPromptParts (user_message rag_context conversation_context : String) :
    List String :=
  ["You are a helpful AI assistant with access to a knowledge base.",
   "Use the provided context to answer questions accurately and comprehensively.",
   "If the context doesn\x27t contain relevant information, clearly state this and provide a helpful response based on your general knowledge.",
   ""] ++
  (if conversation_context = "" then []
   else ["CONVERSATION HISTORY:", conversation_context, ""]) ++
  (if rag_context = "" then []
   else ["KNOWLEDGE BASE CONTEXT:", rag_context, ""]) ++
  ["CURRENT USER MESSAGE:",
   user_message,
   "",
   "INSTRUCTIONS:",
   "- Use the knowledge base context to answer the user\x27s question if relevant",
   "- Consider the conversation history to maintain context and continuity",
   "- If the knowledge base doesn\x27t contain relevant information, clearly mention this",
   "- Provide a helpful, accurate, and conversational response",
   "- Be concise but comprehensive",
   "",
   "RESPONSE:"]

/-- `RAGPrompts.get_rag_chat_prompt` (`prompts.py` 8-48). -/
def getRagChatPrompt (user_message rag_context conversation_context : String) :
    String :=
  String.intercalate "\n" (ragChatPromptParts user_message rag_context conversation_context)

/-- The `prompt_parts` list built by `RAGPrompts.get_chat_prompt`
(`prompts.py` 50-81). -/
def chatPromptParts (user_message conversation_context : String) : List String :=
  ["You are a helpful AI assistant engaged in a conversation.",
   "Use the conversation history to maintain context and provide relevant, coherent responses.",
   "Be conversational and natural.",
   ""] ++
  (if conversation_context = "" then []
   else ["CONVERSATION HISTORY:", conversation_context, ""]) ++
  ["CURRENT USER MESSAGE:",
   user_message,
   "",
   "INSTRUCTIONS:",
   "- Consider the conversation history to maintain context and continuity",
   "- Provide a helpful, accurate, and conversational response",
   "- Be natural and engaging in your communication style",
   "",
   "RESPONSE:"]

/-- `RAGPrompts.get_chat_prompt` (`prompts.py` 50-81). -/
def getChatPrompt (user_message conversation_context : String) : String :=
  String.intercalate "\n" (chatPromptParts user_message conversation_context)

/-- Projection used to state facts about the `context_used` field of a
`POST /chat` outcome: `some (field value)` on success, `none` on a 500. -/
def chatRespContextUsed : Except String ChatResponse → Option (Option String)
  | .ok r => some r.context_used
  | .error _ => none

/-! ## Helper lemmas -/

theorem storeGet_storeSet_self (st : Store) (sid : String) (s : Session) :
    storeGet (storeSet st sid s) sid = some s := by
  induction st with
  | nil => simp [storeGet, storeSet]
  | cons kv rest ih =>
      by_cases h : kv.1 = sid
      · simp [storeSet, h, storeGet]
      · simp [storeSet, h, storeGet, ih]

theorem summarizeConversation_error (messages : List Turn) :
    summarizeConversation messages (.error ()) = "" := by
  unfold summarizeConversation
  split <;> rfl

theorem summarizeUpdate_message_count (cfg : Config) (env : GenEnv) (s : Session) :
    (summarizeUpdate cfg env s).message_count = s.message_count := by
  unfold summarizeUpdate
  split
  · dsimp only
    split <;> rfl
  · rfl

theorem chatWithHistory_message_count (cfg : Config) (env : GenEnv)
    (message : String) (s : Session) (use_rag : Bool) :
    ((chatWithHistory cfg env message s use_rag).2).message_count = s.message_count := by
  unfold chatWithHistory
  split
  · rfl
  · cases h : env.genResult <;> simp [h, summarizeUpdate_message_count]

theorem chatWithHistoryStream_message_count (cfg : Config) (env : GenEnv)
    (message : String) (s : Session) (use_rag : Bool) (chunks : List Chunk)
    (exc : Option String) :
    ((chatWithHistoryStream cfg env message s use_rag chunks exc).2).message_count
      = s.message_count := by
  unfold chatWithHistoryStream
  split
  · rfl
  · cases exc <;> simp [summarizeUpdate_message_count]

theorem segmentTexts_all_some (texts : List String) (h : ∀ t ∈ texts, t ≠ "") :
    segmentTexts (texts.map some) = texts := by
  induction texts with
  | nil => rfl
  | cons t rest ih =>
      have ht : t ≠ "" := h t (List.mem_cons_self t rest)
      simp [segmentTexts, ht] at ih ⊢
      exact ih (fun x hx => h x (List.mem_cons_of_mem t hx))

theorem string_take_empty (n : Nat) : ("" : String).take n = "" := by
  simp [String.take, Substring.take, String.toSubstring, Substring.toString,
    String.extract, String.extract.go₁]

theorem retrieveRagContext_ok (cfg : Config) (ctxs : List (Option String))
    (hne : ctxs ≠ []) :
    retrieveRagContext cfg true (.ok ctxs) =
      (String.intercalate "\n\n" (segmentTexts ctxs)).take cfg.max_context_length := by
  simp [retrieveRagContext, hne]

/-! ## Claim theorems -/

/-- C7: for a session with a non-empty summary and exactly 4 turns, with
`max_history_length = 3`, `_build_conversation_context` produces the
summary block followed by exactly the last 3 turns as alternating
`User:` / `Assistant:` lines in order, omitting the oldest turn. -/
theorem C7_context_builder_window (cfg : Config) (s : Session)
    (t1 t2 t3 t4 : Turn) (h3 : cfg.max_history_length = 3)
    (hs : s.summary ≠ "") (hm : s.messages = [t1, t2, t3, t4]) :
    buildConversationContext cfg s =
      String.intercalate "\n\n"
        ["Previous conversation summary:\n" ++ s.summary,
         "Recent conversation:",
         "User: " ++ t2.user, "Assistant: " ++ t2.assistant,
         "User: " ++ t3.user, "Assistant: " ++ t3.assistant,
         "User: " ++ t4.user, "Assistant: " ++ t4.assistant] := by
  simp [buildConversationContext, conversationContextParts, h3, hm, hs, pyTail]

theorem C7_witness :
    buildConversationContext defaultConfig
      { messages := [⟨"u1", "a1", "x", true⟩, ⟨"u2", "a2", "x", true⟩,
                     ⟨"u3", "a3", "x", true⟩, ⟨"u4", "a4", "x", true⟩],
        message_count := 4, summary := "S", created_at := "x",
        last_updated := none } =
      String.intercalate "\n\n"
        ["Previous conversation summary:\nS", "Recent conversation:",
         "User: u2", "Assistant: a2", "User: u3", "Assistant: a3",
         "User: u4", "Assistant: a4"] :=
  C7_context_builder_window defaultConfig
    { messages := [⟨"u1", "a1", "x", true⟩, ⟨"u2", "a2", "x", true⟩,
                   ⟨"u3", "a3", "x", true⟩, ⟨"u4", "a4", "x", true⟩],
      message_count := 4, summary := "S", created_at := "x",
      last_updated := none }
    ⟨"u1", "a1", "x", true⟩ ⟨"u2", "a2", "x", true⟩
    ⟨"u3", "a3", "x", true⟩ ⟨"u4", "a4", "x", true⟩
    rfl (by decide) rfl

/-- C10: with `max_history_length = 0` the context builder folds in
every turn remaining in the session's list — Python's `messages[-0:]`
selects all messages, not zero of them — so a zero window does not
disable history folding. -/
theorem C10_zero_window_folds_all (cfg : Config) (s : Session)
    (h0 : cfg.max_history_length = 0) :
    buildConversationContext cfg s =
      String.intercalate "\n\n"
        ((if s.summary = "" then []
          else ["Previous conversation summary:\n" ++ s.summary]) ++
         (if s.messages = [] then []
          else "Recent conversation:" ::
            s.messages.flatMap
              (fun m => ["User: " ++ m.user, "Assistant: " ++ m.assistant]))) := by
  simp [buildConversationContext, conversationContextParts, h0, pyTail]

theorem C10_witness :
    buildConversationContext
      { max_history_length := 0, summarize_threshold := 5, max_context_length := 4000 }
      { messages := [⟨"u1", "a1", "x", true⟩, ⟨"u2", "a2", "x", false⟩],
        message_count := 2, summary := "", created_at := "x",
        last_updated := none } =
      String.intercalate "\n\n"
        ["Recent conversation:", "User: u1", "Assistant: a1",
         "User: u2", "Assistant: a2"] :=
  C10_zero_window_folds_all _ _ rfl

/-- C8: the RAG chat prompt has no `KNOWLEDGE BASE CONTEXT:` section when
the retrieved-context argument is empty, no `CONVERSATION HISTORY:`
section when the conversation-context argument is empty, and the plain
chat prompt never has a `KNOWLEDGE BASE CONTEXT:` section.  Sections are
identified by their label line in the `prompt_parts` list that the
builder joins into the prompt; the disequality hypotheses exclude the
degenerate case of an argument string that itself coincides with a label
line (such an argument appears in the prompt as content, not as a
section). -/
theorem C8_prompt_sections (u r c : String) :
    (getRagChatPrompt u r c = String.intercalate "\n" (ragChatPromptParts u r c)) ∧
    (r = "" → u ≠ "KNOWLEDGE BASE CONTEXT:" → c ≠ "KNOWLEDGE BASE CONTEXT:" →
      "KNOWLEDGE BASE CONTEXT:" ∉ ragChatPromptParts u r c) ∧
    (c = "" → u ≠ "CONVERSATION HISTORY:" → r ≠ "CONVERSATION HISTORY:" →
      "CONVERSATION HISTORY:" ∉ ragChatPromptParts u r c) ∧
    (u ≠ "KNOWLEDGE BASE CONTEXT:" → c ≠ "KNOWLEDGE BASE CONTEXT:" →
      "KNOWLEDGE BASE CONTEXT:" ∉ chatPromptParts u c) := by
  refine ⟨rfl, ?_, ?_, ?_⟩
  · intro hr hu hc
    subst hr
    by_cases hc0 : c = "" <;>
      simp [ragChatPromptParts, hc0, Ne.symm hu, Ne.symm hc]
  · intro hc hu hr
    subst hc
    by_cases hr0 : r = "" <;>
      simp [ragChatPromptParts, hr0, Ne.symm hu, Ne.symm hr]
  · intro hu hc
    by_cases hc0 : c = "" <;>
      simp [chatPromptParts, hc0, Ne.symm hu, Ne.symm hc]

theorem C8_witness :
    ("KNOWLEDGE BASE CONTEXT:" ∉ ragChatPromptParts "hello" "" "hi") ∧
    ("CONVERSATION HISTORY:" ∉ ragChatPromptParts "hello" "ctx" "") ∧
    ("KNOWLEDGE BASE CONTEXT:" ∉ chatPromptParts "hello" "hi") :=
  ⟨(C8_prompt_sections "hello" "" "hi").2.1 rfl (by decide) (by decide),
   (C8_prompt_sections "hello" "ctx" "").2.2.1 rfl (by decide) (by decide),
   (C8_prompt_sections "hello" "ctx" "hi").2.2.2 (by decide) (by decide)⟩

/-- C4: `_retrieve_rag_context` returns `""` without consulting the
provider when no retrieval resource is configured, returns `""` on a
provider exception without raising, and otherwise joins the returned
text segments with a blank line in provider order, truncated to
`max_context_length` characters. -/
theorem C4_retrieve_context (cfg : Config)
    (o : Except Unit (List (Option String))) (texts : List String) :
    retrieveRagContext cfg false o = "" ∧
    retrieveRagContext cfg true (.error ()) = "" ∧
    ((∀ t ∈ texts, t ≠ "") →
      retrieveRagContext cfg true (.ok (texts.map some)) =
        (String.intercalate "\n\n" texts).take cfg.max_context_length) := by
  refine ⟨rfl, rfl, fun h => ?_⟩
  cases texts with
  | nil =>
      show ("" : String) = _
      rw [show String.intercalate "\n\n" ([] : List String) = "" from rfl,
        string_take_empty]
  | cons t rest =>
      rw [show (t :: rest).map some = some t :: rest.map some from rfl,
        retrieveRagContext_ok cfg _ (by simp),
        show some t :: rest.map some = (t :: rest).map some from rfl,
        segmentTexts_all_some _ h]

theorem summarizeUpdate_error (cfg : Config) (env : GenEnv) (s : Session)
    (h : env.summarizeResult = .error ()) : summarizeUpdate cfg env s = s := by
  unfold summarizeUpdate
  split
  · simp [h, summarizeConversation_error]
  · rfl

/-- C2 (amended): a failed summarization call is recovered locally as the
empty summary; the periodic trigger inside both chat operations then
leaves the session's prior summary and turn list untouched; the
`POST /sessions/{id}/summarize` endpoint leaves the turn list untouched
but unconditionally overwrites the session's summary, so a failure there
replaces the prior summary with the empty string. -/
theorem C2_summarization_error_recovery (cfg : Config) (env : GenEnv)
    (message now : String) (use_rag : Bool) (s : Session)
    (chunks : List Chunk) (exc : Option String) (msgs : List Turn)
    (st : Store) (sid : String) :
    (summarizeConversation msgs (.error ()) = "") ∧
    (env.summarizeResult = .error () →
      (chatWithHistory cfg env message s use_rag).2.summary = s.summary ∧
      (chatWithHistory cfg env message s use_rag).2.messages = s.messages) ∧
    (env.summarizeResult = .error () →
      (chatWithHistoryStream cfg env message s use_rag chunks exc).2.summary
          = s.summary ∧
      (chatWithHistoryStream cfg env message s use_rag chunks exc).2.messages
          = s.messages) ∧
    (storeGet st sid = some s →
      storeGet (forceSummarizeSession (.error ()) now st sid).1 sid =
        some { s with summary := "", last_updated := some now }) := by
  refine ⟨summarizeConversation_error msgs, ?_, ?_, ?_⟩
  · intro h
    unfold chatWithHistory
    split
    · exact ⟨rfl, rfl⟩
    · cases hg : env.genResult <;> simp [summarizeUpdate_error cfg env s h]
  · intro h
    unfold chatWithHistoryStream
    split
    · exact ⟨rfl, rfl⟩
    · cases exc <;> simp [summarizeUpdate_error cfg env s h]
  · intro h
    unfold forceSummarizeSession
    rw [h]
    dsimp only
    rw [summarizeConversation_error]
    exact storeGet_storeSet_self st sid _

theorem C2_witness :
    (chatWithHistory defaultConfig
        { modelInit := true, ragConfigured := false, retrieval := .ok [],
          genResult := .ok "R", summarizeResult := .error () }
        "m"
        { messages := [⟨"u", "a", "x", true⟩], message_count := 5,
          summary := "old", created_at := "x", last_updated := none }
        true).2.summary = "old" ∧
    (chatWithHistory defaultConfig
        { modelInit := true, ragConfigured := false, retrieval := .ok [],
          genResult := .ok "R", summarizeResult := .error () }
        "m"
        { messages := [⟨"u", "a", "x", true⟩], message_count := 5,
          summary := "old", created_at := "x", last_updated := none }
        true).2.messages = [⟨"u", "a", "x", true⟩] :=
  (C2_summarization_error_recovery defaultConfig
    { modelInit := true, ragConfigured := false, retrieval := .ok [],
      genResult := .ok "R", summarizeResult := .error () }
    "m" "t0" true
    { messages := [⟨"u", "a", "x", true⟩], message_count := 5,
      summary := "old", created_at := "x", last_updated := none }
    [] none [] [] "s1").2.1 rfl

/-- C2 counterexample: a session whose prior summary is `"old summary"`
loses it to the empty string when `POST /sessions/{id}/summarize` runs
while the provider call fails — the claim's "prior summary left
untouched in every caller" fails for this caller. -/
theorem C2_counterexample :
    storeGet (forceSummarizeSession (.error ()) "t1"
        [("s1", { messages := [⟨"u", "a", "x", true⟩], message_count := 1,
                  summary := "old summary", created_at := "x",
                  last_updated := none })] "s1").1 "s1" =
      some { messages := [⟨"u", "a", "x", true⟩], message_count := 1,
             summary := "", created_at := "x", last_updated := some "t1" } ∧
    ("" : String) ≠ "old summary" :=
  ⟨rfl, by decide⟩

/-- C3 (amended): the `context_used` diagnostic reported by `POST /chat`
and by the metadata frame of `POST /chat/stream` is the retrieved
context truncated by the 200-character rule — first 200 characters plus
`"..."` when longer than 200, the original string when at most 200
characters — and when there was no context the field is present and
holds the empty string (it is not absent). -/
theorem C3_context_truncation (c : String) (cfg : Config) (env : GenEnv)
    (now genSid sid message : String) (st : Store) (req : ChatRequest)
    (use_rag : Bool) (chunks : List Chunk) (exc : Option String) (s : Session) :
    (200 < c.length → truncContext c = c.take 200 ++ "...") ∧
    (c.length ≤ 200 → truncContext c = c) ∧
    (truncContext "" = "") ∧
    (chatRespContextUsed (chatEndpoint cfg env now genSid st req).2 =
      some (some (truncContext
        ((chatWithHistory cfg env req.message (sessionFor st req genSid now)
            req.use_rag).1.2)))) ∧
    (Frame.metadata sid
        ((generateStream cfg env message now use_rag chunks exc sid s).2).message_count
        (truncContext (firstCtx
          (chatWithHistoryStream cfg env message s use_rag chunks exc).1)) ∈
      (generateStream cfg env message now use_rag chunks exc sid s).1) := by
  refine ⟨?_, ?_, rfl, rfl, ?_⟩
  · intro h
    have hne : c ≠ "" := by
      intro he
      rw [he] at h
      simp at h
    simp [truncContext, hne, h]
  · intro h
    have hnot : ¬(200 < c.length) := by omega
    simp [truncContext, hnot]
  · dsimp only [generateStream]
    exact List.mem_append_right _ (List.mem_cons_self _ _)

theorem C3_witness :
    truncContext (String.mk (List.replicate 201 'a')) =
      (String.mk (List.replicate 201 'a')).take 200 ++ "..." ∧
    truncContext "short context" = "short context" :=
  ⟨(C3_context_truncation (String.mk (List.replicate 201 'a')) defaultConfig
      { modelInit := true, ragConfigured := false, retrieval := .ok [],
        genResult := .ok "R", summarizeResult := .ok "" }
      "t0" "g0" "s0" "m" [] { message := "hi", session_id := none, use_rag := true }
      true [] none (freshSession "t0")).1
        (by set_option maxRecDepth 4000 in decide),
   (C3_context_truncation "short context" defaultConfig
      { modelInit := true, ragConfigured := false, retrieval := .ok [],
        genResult := .ok "R", summarizeResult := .ok "" }
      "t0" "g0" "s0" "m" [] { message := "hi", session_id := none, use_rag := true }
      true [] none (freshSession "t0")).2.1 (by decide)⟩

/-- C3 counterexample: a `POST /chat` turn with no retrieved context
(retrieval disabled) reports `context_used` as a present field holding
the empty string — `some ""` — not as an absent field (`none`), refuting
the claim's "the field is absent" clause. -/
theorem C3_counterexample :
    chatRespContextUsed
      (chatEndpoint defaultConfig
        { modelInit := true, ragConfigured := false, retrieval := .ok [],
          genResult := .ok "R", summarizeResult := .ok "" }
        "t0" "g0" [] { message := "hi", session_id := none, use_rag := true }).2
      = some (some "") ∧
    (some (some "") : Option (Option String)) ≠ some none :=
  ⟨rfl, by decide⟩

/-- C9: if the `POST /chat` handler's `try` body raises (producing a 500
response), the session store is returned unchanged — in particular no
entry is created for a freshly generated or previously unseen session
identifier, because the store commit happens only after the generation
call returns. -/
theorem C9_500_leaves_store_unchanged (serviceInit : Bool)
    (call : Session → Except String ((String × String) × Session))
    (now genSid : String) (st : Store) (req : ChatRequest) (e : String)
    (herr : (chatEndpointGen serviceInit call now genSid st req).2 = .error e) :
    (chatEndpointGen serviceInit call now genSid st req).1 = st ∧
    (storeGet st (sessionIdOf req genSid) = none →
      storeGet (chatEndpointGen serviceInit call now genSid st req).1
        (sessionIdOf req genSid) = none) := by
  unfold chatEndpointGen at herr ⊢
  by_cases hs : serviceInit = false
  · simp only [hs, if_pos rfl]
    exact ⟨rfl, fun h => h⟩
  · simp only [hs, if_neg] at herr ⊢
    cases hc : call (sessionFor st req genSid now) with
    | error e2 =>
        simp only [hc] at herr ⊢
        exact ⟨rfl, fun h => h⟩
    | ok pr =>
        rw [hc] at herr
        simp at herr

theorem C9_witness :
    (chatEndpointGen true (fun _ => .error "boom") "t0" "g1" []
        { message := "hi", session_id := none, use_rag := true }).1 = [] ∧
    storeGet (chatEndpointGen true (fun _ => .error "boom") "t0" "g1" []
        { message := "hi", session_id := none, use_rag := true }).1 "g1" = none :=
  have h := C9_500_leaves_store_unchanged true (fun _ => .error "boom") "t0" "g1"
    [] { message := "hi", session_id := none, use_rag := true }
    "Error processing chat: boom" rfl
  ⟨h.1, h.2 rfl⟩

theorem C4_witness :
    retrieveRagContext defaultConfig false (.ok [some "x"]) = "" ∧
    retrieveRagContext defaultConfig true (.error ()) = "" ∧
    retrieveRagContext defaultConfig true (.ok ([ "alpha", "beta"].map some)) =
      (String.intercalate "\n\n" ["alpha", "beta"]).take
        defaultConfig.max_context_length :=
  ⟨(C4_retrieve_context defaultConfig (.ok [some "x"]) ["alpha", "beta"]).1,
   (C4_retrieve_context defaultConfig (.ok [some "x"]) ["alpha", "beta"]).2.1,
   (C4_retrieve_context defaultConfig (.ok [some "x"]) ["alpha", "beta"]).2.2
     (by decide)⟩

theorem chatWithHistory_ok (cfg : Config) (env : GenEnv) (message : String)
    (s : Session) (use_rag : Bool) (t : String)
    (hm : env.modelInit = true) (hg : env.genResult = .ok t) :
    chatWithHistory cfg env message s use_rag =
      ((pyStrip t,
        if use_rag && env.ragConfigured then
          retrieveRagContext cfg env.ragConfigured env.retrieval
        else ""),
       summarizeUpdate cfg env s) := by
  unfold chatWithHistory
  rw [hm, hg]
  rfl

theorem summarizeUpdate_trigger (cfg : Config) (env : GenEnv) (s : Session)
    (hpos : 0 < s.message_count)
    (hdiv : s.message_count % cfg.summarize_threshold = 0)
    (hsum : summarizeConversation s.messages env.summarizeResult ≠ "") :
    summarizeUpdate cfg env s =
      { s with summary := summarizeConversation s.messages env.summarizeResult,
               messages := s.messages.drop (s.messages.length - 2) } := by
  unfold summarizeUpdate shouldSummarize
  simp [hpos, hdiv, hsum]

theorem summarizeUpdate_no_trigger (cfg : Config) (env : GenEnv) (s : Session)
    (h : ¬(0 < s.message_count ∧
           s.message_count % cfg.summarize_threshold = 0)) :
    summarizeUpdate cfg env s = s := by
  have h' : shouldSummarize cfg s ≠ true := by
    intro hc
    simp only [shouldSummarize, Bool.and_eq_true, decide_eq_true_eq] at hc
    exact h hc
  simp [summarizeUpdate, h']

theorem chatEndpoint_store (cfg : Config) (env : GenEnv) (now genSid : String)
    (st : Store) (req : ChatRequest) :
    (chatEndpoint cfg env now genSid st req).1 =
      storeSet st (sessionIdOf req genSid)
        (commitTurn req.message
          ((chatWithHistory cfg env req.message (sessionFor st req genSid now)
              req.use_rag).1.1)
          now req.use_rag
          ((chatWithHistory cfg env req.message (sessionFor st req genSid now)
              req.use_rag).2)) := rfl

/-- C1: for a `POST /chat` call on a stored session whose
`message_count` (the value standing in the store, i.e. the count after
the increment performed by the previous chat call) is nonzero and
divisible by `summarize_threshold`, a successful generation with a
non-empty summarization result overwrites the session's summary and
truncates the retained prior turns to at most 2 entries (the stored list
afterwards is those entries plus this call's newly appended turn); when
the count is not divisible, the prior turn list is left unmodified by
the summarization mechanism (the stored list is exactly the old list
plus the appended turn, with the summary unchanged). -/
theorem C1_summarization_trigger (cfg : Config) (env : GenEnv)
    (now genSid : String) (st : Store) (req : ChatRequest) (s : Session)
    (t : String)
    (hsid : storeGet st (sessionIdOf req genSid) = some s)
    (hm : env.modelInit = true) (hg : env.genResult = .ok t) :
    ((summarizeConversation s.messages env.summarizeResult ≠ "" →
      0 < s.message_count →
      s.message_count % cfg.summarize_threshold = 0 →
      storeGet (chatEndpoint cfg env now genSid st req).1
          (sessionIdOf req genSid) =
        some { messages := (s.messages.drop (s.messages.length - 2)) ++
                 [⟨req.message, pyStrip t, now, req.use_rag⟩],
               message_count := s.message_count + 1,
               summary := summarizeConversation s.messages env.summarizeResult,
               created_at := s.created_at, last_updated := some now } ∧
      (s.messages.drop (s.messages.length - 2)).length ≤ 2) ∧
    (¬(0 < s.message_count ∧
        s.message_count % cfg.summarize_threshold = 0) →
      storeGet (chatEndpoint cfg env now genSid st req).1
          (sessionIdOf req genSid) =
        some { messages := s.messages ++ [⟨req.message, pyStrip t, now, req.use_rag⟩],
               message_count := s.message_count + 1,
               summary := s.summary, created_at := s.created_at,
               last_updated := some now })) := by
  have hsf : sessionFor st req genSid now = s := by
    simp [sessionFor, hsid]
  constructor
  · intro hsum hpos hdiv
    rw [chatEndpoint_store, hsf,
      chatWithHistory_ok cfg env req.message s req.use_rag t hm hg,
      summarizeUpdate_trigger cfg env s hpos hdiv hsum]
    refine ⟨?_, ?_⟩
    · rw [storeGet_storeSet_self]
      rfl
    · rw [List.length_drop]
      omega
  · intro hnot
    rw [chatEndpoint_store, hsf,
      chatWithHistory_ok cfg env req.message s req.use_rag t hm hg,
      summarizeUpdate_no_trigger cfg env s hnot,
      storeGet_storeSet_self]
    rfl

theorem C1_witness :
    (storeGet (chatEndpoint defaultConfig
        { modelInit := true, ragConfigured := false, retrieval := .ok [],
          genResult := .ok " R ", summarizeResult := .ok " New summary " }
        "t9" "g9"
        [("s1", { messages := [⟨"u1", "a1", "x", true⟩, ⟨"u2", "a2", "x", true⟩,
                               ⟨"u3", "a3", "x", true⟩],
                  message_count := 5, summary := "old", created_at := "x",
                  last_updated := none })]
        { message := "hi", session_id := some "s1", use_rag := true }).1 "s1" =
      some { messages := [⟨"u2", "a2", "x", true⟩, ⟨"u3", "a3", "x", true⟩,
                          ⟨"hi", "R", "t9", true⟩],
             message_count := 6, summary := "New summary", created_at := "x",
             last_updated := some "t9" }) ∧
    ([⟨"u2", "a2", "x", true⟩, ⟨"u3", "a3", "x", true⟩] : List Turn).length ≤ 2 :=
  (C1_summarization_trigger defaultConfig
    { modelInit := true, ragConfigured := false, retrieval := .ok [],
      genResult := .ok " R ", summarizeResult := .ok " New summary " }
    "t9" "g9"
    [("s1", { messages := [⟨"u1", "a1", "x", true⟩, ⟨"u2", "a2", "x", true⟩,
                           ⟨"u3", "a3", "x", true⟩],
              message_count := 5, summary := "old", created_at := "x",
              last_updated := none })]
    { message := "hi", session_id := some "s1", use_rag := true }
    { messages := [⟨"u1", "a1", "x", true⟩, ⟨"u2", "a2", "x", true⟩,
                   ⟨"u3", "a3", "x", true⟩],
      message_count := 5, summary := "old", created_at := "x",
      last_updated := none }
    " R " rfl rfl rfl).1 (by decide) (by decide) (by decide)

/-- C5: for a successful streamed request whose provider yields the
increments `["Hel", "lo"]`, `POST /chat/stream` emits exactly a chunk
frame `"Hel"`, a chunk frame `"lo"`, one metadata frame and one done
frame, in that order; and the concatenation `"Hello"` of the chunk
contents is the assistant text of the turn appended to the session. -/
theorem C5_stream_frames (cfg : Config) (env : GenEnv)
    (message now sid : String) (use_rag : Bool) (s : Session)
    (hm : env.modelInit = true) :
    ∃ m c,
      (generateStream cfg env message now use_rag
          [⟨some "Hel", []⟩, ⟨some "lo", []⟩] none sid s).1 =
        [Frame.chunk "Hel" sid, Frame.chunk "lo" sid,
         Frame.metadata sid m c, Frame.done] ∧
      ((generateStream cfg env message now use_rag
          [⟨some "Hel", []⟩, ⟨some "lo", []⟩] none sid s).2).messages.getLast? =
        some { user := message, assistant := "Hello", timestamp := now,
               used_rag := use_rag } := by
  have key : generateStream cfg env message now use_rag
      [⟨some "Hel", []⟩, ⟨some "lo", []⟩] none sid s =
      (let rc := if use_rag && env.ragConfigured then
          retrieveRagContext cfg env.ragConfigured env.retrieval
        else ""
       let s2 := commitTurn message "Hello" now use_rag
         (summarizeUpdate cfg env s)
       ([Frame.chunk "Hel" sid, Frame.chunk "lo" sid,
         Frame.metadata sid s2.message_count
           (truncContext (firstCtx [("Hel", rc), ("lo", rc)])),
         Frame.done], s2)) := by
    unfold generateStream chatWithHistoryStream
    rw [hm]
    rfl
  rw [key]
  dsimp only
  refine ⟨_, _, rfl, ?_⟩
  simp [commitTurn]

theorem C5_witness :
    ∃ m c,
      (generateStream defaultConfig
          { modelInit := true, ragConfigured := false, retrieval := .ok [],
            genResult := .ok "x", summarizeResult := .ok "" }
          "msg" "t0" true [⟨some "Hel", []⟩, ⟨some "lo", []⟩] none "sid1"
          (freshSession "t0")).1 =
        [Frame.chunk "Hel" "sid1", Frame.chunk "lo" "sid1",
         Frame.metadata "sid1" m c, Frame.done] ∧
      ((generateStream defaultConfig
          { modelInit := true, ragConfigured := false, retrieval := .ok [],
            genResult := .ok "x", summarizeResult := .ok "" }
          "msg" "t0" true [⟨some "Hel", []⟩, ⟨some "lo", []⟩] none "sid1"
          (freshSession "t0")).2).messages.getLast? =
        some { user := "msg", assistant := "Hello", timestamp := "t0",
               used_rag := true } :=
  C5_stream_frames defaultConfig
    { modelInit := true, ragConfigured := false, retrieval := .ok [],
      genResult := .ok "x", summarizeResult := .ok "" }
    "msg" "t0" "sid1" true (freshSession "t0") rfl

theorem applyOp_message_count (cfg : Config) (s : Session) (op : SessionOp) :
    (applyOp cfg s op).message_count = s.message_count + opAppends op := by
  cases op with
  | chat env message now use_rag =>
      simp [applyOp, opAppends, commitTurn, chatWithHistory_message_count]
  | chatStream env chunks exc message now use_rag sid =>
      simp [applyOp, opAppends, generateStream, commitTurn,
        chatWithHistoryStream_message_count]
  | forceSummarize outcome now => simp [applyOp, opAppends]

/-- C6: over any sequence of operations touching a session record, the
session's `message_count` equals its starting value plus the number of
turns appended along the way — each chat operation appends exactly one
turn and increments the count once, and no operation (including the
post-summarization truncation of the turn list) ever decrements it. -/
theorem C6_message_count_invariant (cfg : Config) (s : Session)
    (ops : List SessionOp) :
    (applyTrace cfg s ops).message_count = s.message_count + traceAppends ops ∧
    s.message_count ≤ (applyTrace cfg s ops).message_count := by
  induction ops generalizing s with
  | nil => simp [applyTrace, traceAppends]
  | cons op ops ih =>
      have h := (ih (applyOp cfg s op)).1
      have hop := applyOp_message_count cfg s op
      have heq : (applyTrace cfg s (op :: ops)).message_count =
          s.message_count + traceAppends (op :: ops) := by
        rw [applyTrace, h, hop]
        simp [traceAppends]
        omega
      exact ⟨heq, by omega⟩

end RagChat

